import Mathlib

/-!
Verification of the gastown orchestration core against its specification.

The definitions below are shallow embeddings of the Go source:
* the witness health engine (`internal/witness`: `CheckWorkerHealth`,
  `reassignOrphanWork`, `ValidateHeartbeatTimeout`-style constants),
* the refinery merge queue (`internal/refinery`: `processOnce`, `ProcessMR`,
  `ExecuteMerge`, `pushWithRetry`, `handleFailure`),
* the beads validation helpers (`ValidateHeartbeatTimeout`,
  `ValidateConvoyStage`, `ValidateConvoyStageTransition`,
  `ValidateConvoyStageTransitionWithReopening`),
* the built-in molecule seeding (`BuiltinMolecules`, `SeedBuiltinMolecules`),
* the projection sync daemon state persistence (`State`, `SaveState`, `New`).

Effectful Go code is modelled by explicit state passing: the work store is a
list of issues, the git repository is a record of the relevant branch
contents, and the outcomes of external commands (git, the test runner) are
supplied by an environment record.  Machine integers are modelled by `Int` /
`Nat` (no overflow is relevant at the ranges involved).
-/

namespace Gastown

/-! ## Work store data model (beads issues)

An issue as the refinery / witness code observes it: the fields read or
written by the embedded functions (`internal/beads` `Issue` struct).
-/

structure Issue where
  id : String := ""
  title : String := ""
  issueType : String := ""
  status : String := ""
  assignee : String := ""
  priority : Int := 0
  description : String := ""
  closeReason : String := ""
deriving DecidableEq, Repr

/-! ## Health engine (`internal/witness`, src/unnamed/part_003) -/

/-- Health states of a worker (`beads.HealthHealthy` / `HealthStale` /
`HealthDead`; string values per spec section 3.1 and the witness tests). -/
inductive Health where
  | healthy
  | stale
  | dead
deriving DecidableEq, Repr

/-- String form stored in the agent bead's `health` field. -/
def healthToStr : Health → String
  | .healthy => "healthy"
  | .stale => "stale"
  | .dead => "dead"

/-- Health classification from `CheckWorkerHealth` (part_003 lines 94-103):
`timeSince < timeout` healthy, else `timeSince < 2*timeout` stale, else dead.
Durations are in the same (arbitrary) unit for both arguments, as in the Go
`time.Duration` comparison. -/
def classifyHealth (timeSince timeout : Int) : Health :=
  if timeSince < timeout then .healthy
  else if timeSince < 2 * timeout then .stale
  else .dead

/-- The agent-bead fields the health pass reads and writes
(`beads.AgentFields`, of which only `health`, `lifecycle_state` and
`assigned_work` are touched after parsing). -/
structure AgentFields where
  health : String := ""
  lifecycleState : String := ""
  assignedWork : String := ""
deriving DecidableEq, Repr

/-- A work item as seen by `reassignOrphanWork` (status and assignee). -/
structure WorkItem where
  id : String := ""
  status : String := ""
  assignee : String := ""
deriving DecidableEq, Repr

/-- Function `reassignOrphanWork` (part_003 lines 153-182): reset the work item to
open and clear the assignee, but only when its status is still
`in_progress`; any other status (including `blocked`) is left unchanged. -/
def reassignOrphanWork (issue : WorkItem) : WorkItem :=
  if issue.status = "in_progress" then
    { issue with status := "open", assignee := "" }
  else
    issue

/-- One agent's pass of `CheckWorkerHealth` (part_003 lines 86-142) after the
heartbeat fields have been parsed: `timeSince` is `now - last_heartbeat` and
`timeout` is the parsed `heartbeat_timeout`.  `work` is the issue referenced
by `assigned_work` (if any).  Returns the updated agent fields and the
(possibly reassigned) work item. -/
def healthPassAgent (fields : AgentFields) (timeSince timeout : Int)
    (work : Option WorkItem) : AgentFields × Option WorkItem :=
  let newHealth := classifyHealth timeSince timeout
  if healthToStr newHealth ≠ fields.health then
    let fields' := { fields with
      health := healthToStr newHealth
      lifecycleState :=
        if newHealth = Health.dead ∧ fields.lifecycleState ≠ "crashed" then
          "crashed"
        else fields.lifecycleState }
    if newHealth = Health.dead ∧ fields.assignedWork ≠ "" then
      (fields', work.map reassignOrphanWork)
    else
      (fields', work)
  else
    (fields, work)

/-- After any pass the stored health is exactly the classification: in the
updated branch it is written, in the other branch it was already equal. -/
theorem healthPassAgent_health (fields : AgentFields) (timeSince timeout : Int)
    (work : Option WorkItem) :
    (healthPassAgent fields timeSince timeout work).1.health =
      healthToStr (classifyHealth timeSince timeout) := by
  dsimp only [healthPassAgent]
  split_ifs with h1 h2 <;> simp_all

/-- C1: one health-engine pass computes health as a pure function of
`age = now - last_heartbeat`: `age < T` healthy, `T ≤ age < 2T` stale,
`2T ≤ age` dead; at exactly `age = T` the result is stale and at exactly
`age = 2T` it is dead (for any positive timeout `T`). -/
theorem health_classification_c1 (fields : AgentFields)
    (work : Option WorkItem) (age T : Int) (hT : 0 < T) :
    (healthPassAgent fields age T work).1.health
        = healthToStr (classifyHealth age T)
      ∧ (age < T → classifyHealth age T = Health.healthy)
      ∧ (T ≤ age ∧ age < 2 * T → classifyHealth age T = Health.stale)
      ∧ (2 * T ≤ age → classifyHealth age T = Health.dead)
      ∧ classifyHealth T T = Health.stale
      ∧ classifyHealth (2 * T) T = Health.dead := by
  refine ⟨healthPassAgent_health fields age T work, ?_, ?_, ?_, ?_, ?_⟩
  · intro h
    simp [classifyHealth, h]
  · intro h
    simp [classifyHealth, not_lt.mpr h.1, h.2]
  · intro h
    have h1 : ¬ age < T := by omega
    have h2 : ¬ age < 2 * T := by omega
    simp [classifyHealth, h1, h2]
  · have h1 : ¬ (T : Int) < T := lt_irrefl T
    have h2 : T < 2 * T := by omega
    simp [classifyHealth, h1, h2]
  · have h1 : ¬ 2 * T < T := by omega
    have h2 : ¬ 2 * T < 2 * T := lt_irrefl _
    simp [classifyHealth, h1, h2]

/-- Witness for `health_classification_c1` at `T = 60`, `age = 60`. -/
theorem health_classification_c1_witness :
    0 < (60 : Int)
      ∧ ((healthPassAgent { health := "healthy", lifecycleState := "idle" }
              60 60 none).1.health
            = healthToStr (classifyHealth 60 60)
          ∧ ((60 : Int) < 60 → classifyHealth 60 60 = Health.healthy)
          ∧ ((60 : Int) ≤ 60 ∧ (60 : Int) < 2 * 60 →
              classifyHealth 60 60 = Health.stale)
          ∧ (2 * 60 ≤ (60 : Int) → classifyHealth 60 60 = Health.dead)
          ∧ classifyHealth 60 60 = Health.stale
          ∧ classifyHealth (2 * 60) 60 = Health.dead) :=
  ⟨by norm_num,
    health_classification_c1 { health := "healthy", lifecycleState := "idle" }
      none 60 60 (by norm_num)⟩

/-- C2 (code behaviour at the failing input): an agent that transitions into
dead with assigned work whose status is `blocked` has its lifecycle state set
to crashed, but the work item is NOT reassigned: `reassignOrphanWork` acts
only on `in_progress`, so the blocked item keeps its status and assignee,
contradicting the spec ("if its status is `in_progress` or `blocked`,
atomically set status=open and clear assignee") and the repository's own
test table (`TestReassignOrphanWorkOnlyInProgress` lists
`{"blocked", "blocked", true}`). -/
theorem reassign_blocked_not_reassigned_c2 :
    healthPassAgent
        { health := "stale", lifecycleState := "working",
          assignedWork := "gt-123" } 400 180
        (some { id := "gt-123", status := "blocked", assignee := "alice" })
      = ({ health := "dead", lifecycleState := "crashed",
            assignedWork := "gt-123" },
          some { id := "gt-123", status := "blocked", assignee := "alice" }) := by
  decide

/-! ## Validation helpers (`internal/beads`, src/unnamed/part_009) -/

/-- Result of a Go function returning `error`: `ok` is a nil error. -/
inductive GoResult where
  | ok
  | err (msg : String)
deriving DecidableEq, Repr

/-- Whether a `GoResult` is the nil error. -/
def GoResult.isOk : GoResult → Bool
  | .ok => true
  | .err _ => false

/-- Function `ValidateHeartbeatTimeout` (part_009 lines 9-22): the timeout in seconds
must lie between 60 and 3600 inclusive. -/
def ValidateHeartbeatTimeout (timeoutSec : Int) : GoResult :=
  let minTimeout : Int := 60
  let maxTimeout : Int := 3600
  if timeoutSec < minTimeout then
    .err ("heartbeat timeout " ++ toString timeoutSec ++ " seconds is too short")
  else if timeoutSec > maxTimeout then
    .err ("heartbeat timeout " ++ toString timeoutSec ++ " seconds is too long")
  else
    .ok

/-- C7: heartbeat-timeout validation accepts `t` iff `60 ≤ t ≤ 3600`; in
particular 59 and 3601 are rejected while 60 and 3600 are accepted. -/
theorem heartbeat_timeout_validation_c7 :
    (∀ t : Int, (ValidateHeartbeatTimeout t).isOk = true ↔ 60 ≤ t ∧ t ≤ 3600)
      ∧ (ValidateHeartbeatTimeout 59).isOk = false
      ∧ (ValidateHeartbeatTimeout 60).isOk = true
      ∧ (ValidateHeartbeatTimeout 3600).isOk = true
      ∧ (ValidateHeartbeatTimeout 3601).isOk = false := by
  refine ⟨fun t => ?_, by decide, by decide, by decide, by decide⟩
  dsimp only [ValidateHeartbeatTimeout]
  split_ifs with h1 h2 <;> simp [GoResult.isOk] <;> omega

/-- Convoy stage constants (`ConvoyStagePlanning` etc.; values fixed by the
repository test `TestConvoyStageConstants`). -/
def ConvoyStagePlanning : String := "planning"

/-- Convoy stage constant `execution`. -/
def ConvoyStageExecution : String := "execution"

/-- Convoy stage constant `review`. -/
def ConvoyStageReview : String := "review"

/-- Convoy stage constant `complete`. -/
def ConvoyStageComplete : String := "complete"

/-- Function `ValidateConvoyStage` (part_009 lines 25-37): the stage must be one of
the four known stages. -/
def ValidateConvoyStage (stage : String) : GoResult :=
  if stage = ConvoyStagePlanning ∨ stage = ConvoyStageExecution ∨
      stage = ConvoyStageReview ∨ stage = ConvoyStageComplete then
    .ok
  else
    .err ("invalid convoy stage " ++ stage)

/-- Stage ordering map from `ValidateConvoyStageTransition` (part_009 lines
52-58); a Go map lookup of an absent key yields 0. -/
def convoyStageOrder (stage : String) : Nat :=
  if stage = ConvoyStagePlanning then 1
  else if stage = ConvoyStageExecution then 2
  else if stage = ConvoyStageReview then 3
  else if stage = ConvoyStageComplete then 4
  else 0

/-- Function `ValidateConvoyStageTransition` (part_009 lines 43-69): both stages must
be valid and the move must be strictly forward in the stage order. -/
def ValidateConvoyStageTransition (currentStage newStage : String) : GoResult :=
  match ValidateConvoyStage currentStage with
  | .err msg => .err ("current stage: " ++ msg)
  | .ok =>
    match ValidateConvoyStage newStage with
    | .err msg => .err ("new stage: " ++ msg)
    | .ok =>
      if convoyStageOrder newStage ≤ convoyStageOrder currentStage then
        .err ("invalid stage transition from " ++ currentStage ++ " to " ++ newStage)
      else
        .ok

/-- Function `ValidateConvoyStageTransitionWithReopening` (part_009 lines 73-80):
additionally allow exactly `complete → planning`. -/
def ValidateConvoyStageTransitionWithReopening
    (currentStage newStage : String) : GoResult :=
  if currentStage = ConvoyStageComplete ∧ newStage = ConvoyStagePlanning then
    .ok
  else
    ValidateConvoyStageTransition currentStage newStage

/-- C8: the plain validator accepts exactly the strictly forward moves in the
order planning, execution, review, complete (skip-ahead included) and rejects
every backward or same-stage move (and every unknown stage); the
with-reopening variant additionally accepts only `complete → planning` and
otherwise agrees with the plain validator. -/
theorem convoy_stage_transition_c8 (cur nxt : String) :
    ((ValidateConvoyStageTransition cur nxt).isOk = true ↔
        ((cur = "planning" ∧
            (nxt = "execution" ∨ nxt = "review" ∨ nxt = "complete"))
          ∨ (cur = "execution" ∧ (nxt = "review" ∨ nxt = "complete"))
          ∨ (cur = "review" ∧ nxt = "complete")))
      ∧ ((ValidateConvoyStageTransitionWithReopening cur nxt).isOk = true ↔
          ((cur = "complete" ∧ nxt = "planning")
            ∨ (ValidateConvoyStageTransition cur nxt).isOk = true))
      ∧ (¬ (cur = "complete" ∧ nxt = "planning") →
          ValidateConvoyStageTransitionWithReopening cur nxt
            = ValidateConvoyStageTransition cur nxt) := by
  refine ⟨?_, ?_, ?_⟩
  · dsimp only [ValidateConvoyStageTransition, ValidateConvoyStage,
      ConvoyStagePlanning, ConvoyStageExecution, ConvoyStageReview,
      ConvoyStageComplete]
    by_cases hc : cur = "planning" ∨ cur = "execution" ∨ cur = "review" ∨
        cur = "complete"
    · by_cases hn : nxt = "planning" ∨ nxt = "execution" ∨ nxt = "review" ∨
          nxt = "complete"
      · simp only [hc, hn, if_true]
        rcases hc with hc | hc | hc | hc <;> rcases hn with hn | hn | hn | hn <;>
          subst hc <;> subst hn <;> simp [convoyStageOrder, GoResult.isOk,
            ConvoyStagePlanning, ConvoyStageExecution, ConvoyStageReview,
            ConvoyStageComplete]
      · simp only [hc, if_true, hn, if_false]
        constructor
        · intro h
          simp [GoResult.isOk] at h
        · intro h
          exfalso
          rcases h with ⟨_, h⟩ | ⟨_, h⟩ | ⟨_, h⟩ <;> rcases h with h | h <;>
            simp_all
    · simp only [hc, if_false]
      constructor
      · intro h
        simp [GoResult.isOk] at h
      · intro h
        exfalso
        rcases h with ⟨h, _⟩ | ⟨h, _⟩ | ⟨h, _⟩ <;> simp_all
  · dsimp only [ValidateConvoyStageTransitionWithReopening,
      ConvoyStageComplete, ConvoyStagePlanning]
    by_cases h : cur = "complete" ∧ nxt = "planning"
    · simp [h, GoResult.isOk]
    · simp [h]
  · intro h
    dsimp only [ValidateConvoyStageTransitionWithReopening,
      ConvoyStageComplete, ConvoyStagePlanning]
    simp [h]

/-- Witness for `convoy_stage_transition_c8` at the pair
`(complete, planning)`: rejected by the plain validator, accepted by the
with-reopening variant. -/
theorem convoy_stage_transition_c8_witness :
    ((ValidateConvoyStageTransition "complete" "planning").isOk = true ↔
        (("complete" = "planning" ∧
            ("planning" = "execution" ∨ "planning" = "review" ∨
              "planning" = "complete"))
          ∨ ("complete" = "execution" ∧
              ("planning" = "review" ∨ "planning" = "complete"))
          ∨ ("complete" = "review" ∧ "planning" = "complete")))
      ∧ ((ValidateConvoyStageTransitionWithReopening "complete"
            "planning").isOk = true ↔
          (("complete" = "complete" ∧ "planning" = "planning")
            ∨ (ValidateConvoyStageTransition "complete"
                "planning").isOk = true))
      ∧ (¬ ("complete" = "complete" ∧ "planning" = "planning") →
          ValidateConvoyStageTransitionWithReopening "complete" "planning"
            = ValidateConvoyStageTransition "complete" "planning") :=
  convoy_stage_transition_c8 "complete" "planning"

/-! ## Built-in molecules (`internal/beads`, src/unnamed/part_008) -/

/-- A built-in molecule template (`beads.BuiltinMolecule`). -/
structure BuiltinMolecule where
  id : String
  title : String
  description : String
deriving DecidableEq, Repr

/-- Template `EngineerInBoxMolecule` (part_008 lines 197-231); the step body text is
irrelevant to seeding, which matches by title, so it is abbreviated here. -/
def EngineerInBoxMolecule : BuiltinMolecule :=
  { id := "mol-engineer-in-box"
    title := "Engineer in a Box"
    description := "Full workflow from design to merge." }

/-- Template `QuickFixMolecule` (part_008 lines 235-252). -/
def QuickFixMolecule : BuiltinMolecule :=
  { id := "mol-quick-fix"
    title := "Quick Fix"
    description := "Fast path for small changes." }

/-- Template `ResearchMolecule` (part_008 lines 256-273). -/
def ResearchMolecule : BuiltinMolecule :=
  { id := "mol-research"
    title := "Research"
    description := "Investigation workflow." }

/-- Template `InstallGoBinaryMolecule` (part_008 lines 277-298). -/
def InstallGoBinaryMolecule : BuiltinMolecule :=
  { id := "mol-install-go-binary"
    title := "Install Go Binary"
    description := "Single step to rebuild and install the gt binary." }

/-- List `BuiltinMolecules` (part_008 lines 186-193). -/
def BuiltinMolecules : List BuiltinMolecule :=
  [EngineerInBoxMolecule, QuickFixMolecule, ResearchMolecule,
    InstallGoBinaryMolecule]

/-- The issue created by `b.Create` inside `SeedBuiltinMolecules` (part_008
lines 325-330): type molecule, priority 2, the template's title and
description; a freshly created issue is open. -/
def molIssue (mol : BuiltinMolecule) : Issue :=
  { title := mol.title, issueType := "molecule", priority := 2,
    description := mol.description, status := "open" }

/-- Titles returned by `b.List(ListOptions{Type: "molecule", Priority: -1})`
as used to build `existingTitles` (part_008 lines 307-317): the titles of
every issue of type molecule (priority -1 means any priority; no status
filter). -/
def moleculeTitles (store : List Issue) : List String :=
  (store.filter (fun i => i.issueType = "molecule")).map (fun i => i.title)

/-- The creation loop of `SeedBuiltinMolecules` (part_008 lines 320-336):
`existing` is the title set computed before the loop; the accumulator is
(created count, store).  Creation never fails in this model (the store is a
pure list). -/
def seedLoop (existing : List String) : List BuiltinMolecule →
    Nat × List Issue → Nat × List Issue
  | [], acc => acc
  | mol :: rest, acc =>
    if mol.title ∈ existing then
      seedLoop existing rest acc
    else
      seedLoop existing rest (acc.1 + 1, acc.2 ++ [molIssue mol])

/-- Function `SeedBuiltinMolecules` (part_008 lines 303-338): create every built-in
molecule whose title is not already present among the store's molecule
titles; return (number created, resulting store). -/
def SeedBuiltinMolecules (store : List Issue) : Nat × List Issue :=
  seedLoop (moleculeTitles store) BuiltinMolecules (0, store)

/-- The seeding loop only appends to the store. -/
theorem seedLoop_store_append (existing : List String)
    (mols : List BuiltinMolecule) (acc : Nat × List Issue) :
    ∃ extra, (seedLoop existing mols acc).2 = acc.2 ++ extra := by
  induction mols generalizing acc with
  | nil => exact ⟨[], by simp [seedLoop]⟩
  | cons mol rest ih =>
    by_cases h : mol.title ∈ existing
    · simpa [seedLoop, h] using ih acc
    · obtain ⟨extra, hextra⟩ := ih (acc.1 + 1, acc.2 ++ [molIssue mol])
      exact ⟨molIssue mol :: extra, by simp [seedLoop, h, hextra]⟩

/-- Every processed molecule's title ends up among the molecule titles of the
resulting store (it was either already in `existing`, which is the molecule
title set of the accumulator's store, or freshly created). -/
theorem seedLoop_title_mem (existing : List String)
    (mols : List BuiltinMolecule) :
    ∀ acc : Nat × List Issue,
      (∀ t ∈ existing, t ∈ moleculeTitles acc.2) →
        ∀ mol ∈ mols,
          mol.title ∈ moleculeTitles (seedLoop existing mols acc).2 := by
  induction mols with
  | nil =>
    intro acc hex mol hmol
    cases hmol
  | cons m rest ih =>
    intro acc hex mol hmol
    have step : ∀ acc' : Nat × List Issue,
        (∀ t ∈ moleculeTitles acc'.2,
          t ∈ moleculeTitles (seedLoop existing rest acc').2) := by
      intro acc' t ht
      obtain ⟨extra, hextra⟩ := seedLoop_store_append existing rest acc'
      simp only [hextra, moleculeTitles, List.filter_append, List.map_append,
        List.mem_append]
      exact Or.inl ht
    rcases List.mem_cons.mp hmol with hmol | hmol
    · subst hmol
      by_cases h : mol.title ∈ existing
      · simp only [seedLoop, h, if_true]
        exact step acc _ (hex _ h)
      · simp only [seedLoop, h, if_false]
        refine step (acc.1 + 1, acc.2 ++ [molIssue mol]) _ ?_
        simp [moleculeTitles, molIssue]
    · by_cases h : m.title ∈ existing
      · simp only [seedLoop, h, if_true]
        exact ih acc hex mol hmol
      · simp only [seedLoop, h, if_false]
        refine ih (acc.1 + 1, acc.2 ++ [molIssue m]) ?_ mol hmol
        intro t ht
        have := hex t ht
        simp only [moleculeTitles, List.filter_append, List.map_append,
          List.mem_append]
        exact Or.inl this

/-- If every molecule's title is already in `existing`, the loop is the
identity: nothing is created. -/
theorem seedLoop_all_existing (existing : List String)
    (mols : List BuiltinMolecule) (acc : Nat × List Issue)
    (h : ∀ mol ∈ mols, mol.title ∈ existing) :
    seedLoop existing mols acc = acc := by
  induction mols with
  | nil => simp [seedLoop]
  | cons m rest ih =>
    have hm : m.title ∈ existing := h m (by simp)
    simp only [seedLoop, hm, if_true]
    exact ih fun mol hmol => h mol (by simp [hmol])

/-- C9: `SeedBuiltinMolecules` is idempotent: a second run over the store
produced by a first run creates zero molecules and leaves the store (hence
the set of molecule titles) unchanged. -/
theorem seed_builtin_molecules_idempotent_c9 (store : List Issue) :
    SeedBuiltinMolecules (SeedBuiltinMolecules store).2
      = (0, (SeedBuiltinMolecules store).2) := by
  apply seedLoop_all_existing
  intro mol hmol
  exact seedLoop_title_mem (moleculeTitles store) BuiltinMolecules (0, store)
    (fun t ht => ht) mol hmol

/- The molecule-title set of the store the second run scans contains every
built-in title, so `seedLoop_all_existing` applies with its preconditions
discharged by `seedLoop_title_mem`. -/

/-! ## Refinery merge queue (`internal/refinery`, src/unnamed/part_001)

The git repository is modelled by the contents of the target branch (the
only branch the embedded code mutates): `localTarget` and `remoteTarget` are
the commit lists, head first.  The outcome of each external command is
supplied by a `GitEnv`.  Every function additionally returns the list of git
operations it performed, so "no repository state changes" is expressible. -/

/-- Typed merge-request fields (`beads.MRFields`).  `retryCount` is kept as
the raw string value; the embedded claims never read it. -/
structure MRFields where
  branch : String := ""
  target : String := ""
  sourceIssue : String := ""
  worker : String := ""
  rig : String := ""
  convoyID : String := ""
  retryCount : String := ""
  lastConflictSHA : String := ""
  mergeCommit : String := ""
  closeReason : String := ""
deriving DecidableEq, Repr

/-- Set the named MR field, or `none` if the key is unknown.  Keys are the
lowercase underscore names from spec section 3.1. -/
def setMRField (f : MRFields) (key value : String) : Option MRFields :=
  if key = "branch" then some { f with branch := value }
  else if key = "target" then some { f with target := value }
  else if key = "source_issue" then some { f with sourceIssue := value }
  else if key = "worker" then some { f with worker := value }
  else if key = "rig" then some { f with rig := value }
  else if key = "convoy" then some { f with convoyID := value }
  else if key = "retry_count" then some { f with retryCount := value }
  else if key = "last_conflict_sha" then some { f with lastConflictSHA := value }
  else if key = "merge_commit" then some { f with mergeCommit := value }
  else if key = "close_reason" then some { f with closeReason := value }
  else none

/-- Split a character list at every occurrence of `sep` (the pieces do not
contain `sep`); character-level counterpart of `strings.Split`. -/
def splitOnChar (sep : Char) : List Char → List (List Char)
  | [] => [[]]
  | c :: rest =>
    let pieces := splitOnChar sep rest
    if c = sep then [] :: pieces
    else
      match pieces with
      | p :: ps => (c :: p) :: ps
      | [] => [[c]]

/-- Split a line at its first colon: `some (key, value)` when a colon
occurs. -/
def breakAtColon : List Char → Option (List Char × List Char)
  | [] => none
  | c :: rest =>
    if c = ':' then some ([], rest)
    else
      match breakAtColon rest with
      | some (k, v) => some (c :: k, v)
      | none => none

/-- Strip leading and trailing spaces (the only whitespace occurring in
typed-field lines). -/
def trimSpaces (cs : List Char) : List Char :=
  ((cs.dropWhile (fun c => c = ' ')).reverse.dropWhile (fun c => c = ' ')).reverse

/-- One pass over the description lines, accumulating recognised fields and
whether any was found. -/
def parseMRLines : List (List Char) → MRFields → Bool → MRFields × Bool
  | [], f, found => (f, found)
  | line :: rest, f, found =>
    match breakAtColon line with
    | some (k, v) =>
      let key := String.mk ((trimSpaces k).map Char.toLower)
      let value := String.mk (trimSpaces v)
      match setMRField f key value with
      | some f' => parseMRLines rest f' true
      | none => parseMRLines rest f found
    | none => parseMRLines rest f found

/-- Modelled from the spec: `beads.ParseMRFields` is not under src (only its
tests and callers are).  Per spec sections 3.2 and 4.7 and the repository
test `TestParseMRFieldsP1`, typed fields are `key: value` lines with
case-insensitive keys inside the description, and the parser returns nil
when no known MR field occurs. -/
def ParseMRFields (desc : String) : Option MRFields :=
  let (f, found) := parseMRLines (splitOnChar (Char.ofNat 10) desc.data) {} false
  if found then some f else none

/-- Local and remote contents of the target branch: commit identifiers, head
first. -/
structure GitState where
  localTarget : List String := []
  remoteTarget : List String := []
deriving DecidableEq, Repr

/-- Outcome of the `git merge origin/<branch> --no-ff` step. -/
inductive MergeOutcome where
  /-- git reported a conflict (substring CONFLICT in the error output). -/
  | conflictOutcome
  /-- the merge failed for another reason. -/
  | otherFailure
  /-- the merge succeeded, creating a merge commit. -/
  | mergeSuccess
deriving DecidableEq, Repr

/-- Outcomes of the external commands one `ProcessMR` call runs.
`pullResult = some l` models `git pull origin <target>` updating the local
target branch to `l` (a fast-forward to the remote); `none` models a pull
that fails or changes nothing (the code treats pull failure as a non-fatal
warning).  `pushOk n` is whether the n-th push attempt (0-based) succeeds.
`newCommit` is the commit id the merge creates on success. -/
structure GitEnv where
  fetchOk : Bool := true
  checkoutOk : Bool := true
  pullResult : Option (List String) := none
  mergeOutcome : MergeOutcome := .mergeSuccess
  newCommit : String := ""
  testsPass : Bool := true
  pushOk : Nat → Bool := fun _ => true
  revParseOk : Bool := true

/-- The subset of `MergeQueueConfig` the embedded functions read. -/
structure MergeQueueConfig where
  runTests : Bool := true
  testCommand : String := ""
  targetBranch : String := "main"
deriving DecidableEq, Repr

/-- Result of `pushWithRetry`, extended with the observable schedule: how
many push attempts were made and the sleeps (in seconds) taken before the
retries. -/
structure PushResult where
  succeeded : Bool
  attemptsMade : Nat
  sleeps : List Nat
  errMsg : String
deriving DecidableEq, Repr

/-- The retry loop of `pushWithRetry` (part_001 lines 814-827):
`for attempt := 0; attempt <= maxRetries; attempt++`, sleeping `delay` and
doubling it before every attempt after the first.  `fuel` is the number of
loop iterations left (`maxRetries + 1 - attempt` initially). -/
def pushRetryGo (pushOk : Nat → Bool) :
    Nat → Nat → List Nat → Nat → PushResult
  | attempt, _, sleeps, 0 =>
    ⟨false, attempt, sleeps, "push failed after 3 retries"⟩
  | attempt, delay, sleeps, fuel + 1 =>
    let delay' := if 0 < attempt then delay * 2 else delay
    let sleeps' := if 0 < attempt then sleeps ++ [delay] else sleeps
    if pushOk attempt then ⟨true, attempt + 1, sleeps', ""⟩
    else pushRetryGo pushOk (attempt + 1) delay' sleeps' fuel

/-- Function `pushWithRetry` (part_001 lines 807-829): maxRetries = 3, base delay
1 second, so the loop body runs for attempts 0, 1, 2, 3. -/
def pushWithRetry (pushOk : Nat → Bool) : PushResult :=
  pushRetryGo pushOk 0 1 [] 4

/-- Model of `git rev-parse HEAD` on the checked-out target branch; `gitOutput`
failure (or an empty history) yields the literal "unknown" used by
`ExecuteMerge` (part_001 lines 793-796). -/
def revParseHead (revParseOk : Bool) (branch : List String) : String :=
  if revParseOk then
    match branch with
    | sha :: _ => sha
    | [] => "unknown"
  else "unknown"

/-- Struct `ProcessResult` (part_001 lines 648-654). -/
structure ProcessResult where
  success : Bool := false
  mergeCommit : String := ""
  error : String := ""
  conflict : Bool := false
  testsFailed : Bool := false
deriving DecidableEq, Repr

/-- Function `ExecuteMerge` (part_001 lines 718-803): checkout target, pull
(non-fatal), merge `--no-ff` (abort on conflict), run tests if configured
(hard reset of the merge commit on failure), push with retry (hard reset on
final failure), then resolve HEAD.  Returns the result, the final git state
and the git operations performed. -/
def ExecuteMerge (cfg : MergeQueueConfig) (env : GitEnv) (g : GitState) :
    ProcessResult × GitState × List String :=
  if env.checkoutOk = false then
    ({ error := "checkout target failed" }, g, ["checkout"])
  else
    let g1 : GitState :=
      match env.pullResult with
      | some l => { g with localTarget := l }
      | none => g
    match env.mergeOutcome with
    | .conflictOutcome =>
      ({ error := "merge conflict", conflict := true }, g1,
        ["checkout", "pull", "merge", "merge --abort"])
    | .otherFailure =>
      ({ error := "merge failed" }, g1, ["checkout", "pull", "merge"])
    | .mergeSuccess =>
      let g2 : GitState := { g1 with localTarget := env.newCommit :: g1.localTarget }
      if cfg.runTests ∧ env.testsPass = false then
        let g3 : GitState := { g2 with localTarget := g2.localTarget.tail }
        ({ error := "tests failed", testsFailed := true }, g3,
          ["checkout", "pull", "merge", "test", "reset"])
      else
        let testOps := if cfg.runTests then ["test"] else []
        let pr := pushWithRetry env.pushOk
        if pr.succeeded then
          let g4 : GitState := { g2 with remoteTarget := g2.localTarget }
          let sha := revParseHead env.revParseOk g4.localTarget
          ({ success := true, mergeCommit := sha }, g4,
            ["checkout", "pull", "merge"] ++ testOps ++ ["push", "rev-parse"])
        else
          let g4 : GitState := { g2 with localTarget := g2.localTarget.tail }
          ({ error := "push failed: " ++ pr.errMsg }, g4,
            ["checkout", "pull", "merge"] ++ testOps ++ ["push", "reset"])

/-- Function `ProcessMR` (part_001 lines 658-694): parse the typed MR fields (failure
if none), require a branch, fetch it from origin, then delegate to
`ExecuteMerge`. -/
def ProcessMR (cfg : MergeQueueConfig) (env : GitEnv) (mr : Issue)
    (g : GitState) : ProcessResult × GitState × List String :=
  match ParseMRFields mr.description with
  | none => ({ error := "no MR fields found in description" }, g, [])
  | some f =>
    if f.branch = "" then
      ({ error := "branch field is required in merge request" }, g, [])
    else if env.fetchOk = false then
      ({ error := "fetch failed" }, g, ["fetch"])
    else
      let (r, g', ops) := ExecuteMerge cfg env g
      (r, g', "fetch" :: ops)

/-- The per-MR part of `processOnce` (part_001 lines 622-645): claim the MR
(status in_progress), process it, then close it with reason
`"merged: <sha>"` on success (`CloseWithReason`) or reopen it
(`handleFailure`, lines 698-709) on failure. -/
def processTick (cfg : MergeQueueConfig) (env : GitEnv) (mr : Issue)
    (g : GitState) : Issue × GitState × List String :=
  let mr1 := { mr with status := "in_progress" }
  let (r, g', ops) := ProcessMR cfg env mr1 g
  if r.success then
    ({ mr1 with
        status := "closed",
        closeReason := "merged: " ++ r.mergeCommit }, g', ops)
  else
    ({ mr1 with status := "open" }, g', ops)

/-- C10: when the description carries no typed MR fields, `ProcessMR` fails
with exactly "no MR fields found in description"; when fields are present
but the branch is empty, it fails with exactly "branch field is required in
merge request"; in both cases it returns before any git operation, so the
repository state is unchanged and the operation trace is empty. -/
theorem processmr_early_errors_c10 (cfg : MergeQueueConfig) (env : GitEnv)
    (mr : Issue) (g : GitState)
    (h : ParseMRFields mr.description = none ∨
      ∃ f, ParseMRFields mr.description = some f ∧ f.branch = "") :
    (ProcessMR cfg env mr g).2.1 = g
      ∧ (ProcessMR cfg env mr g).2.2 = []
      ∧ (ProcessMR cfg env mr g).1.success = false
      ∧ (ProcessMR cfg env mr g).1.error =
          (if ParseMRFields mr.description = none then
            "no MR fields found in description"
          else
            "branch field is required in merge request") := by
  rcases h with h | ⟨f, hf, hb⟩
  · simp [ProcessMR, h]
  · simp [ProcessMR, hf, hb]

/-- Witness for `processmr_early_errors_c10`: a description with no typed MR
fields (from `TestProcessMR_NoMRFields`) and one with fields but an empty
branch (from `TestProcessMR_MissingBranch`). -/
theorem processmr_early_errors_c10_witness :
    ((ProcessMR {} {}
          { id := "gt-mr-test", title := "Test MR",
            issueType := "merge-request",
            description := "This issue has no MR fields" } {}).2.1 = ({} : GitState)
        ∧ (ProcessMR {} {}
            { id := "gt-mr-test", title := "Test MR",
              issueType := "merge-request",
              description := "This issue has no MR fields" } {}).2.2 = []
        ∧ (ProcessMR {} {}
            { id := "gt-mr-test", title := "Test MR",
              issueType := "merge-request",
              description := "This issue has no MR fields" } {}).1.success = false
        ∧ (ProcessMR {} {}
            { id := "gt-mr-test", title := "Test MR",
              issueType := "merge-request",
              description := "This issue has no MR fields" } {}).1.error =
            (if ParseMRFields "This issue has no MR fields" = none then
              "no MR fields found in description"
            else
              "branch field is required in merge request"))
      ∧ ((ProcessMR {} {}
            { id := "gt-mr-test", title := "Test MR",
              issueType := "merge-request",
              description := "target: main\nworker: TestWorker" } {}).2.1
              = ({} : GitState)
          ∧ (ProcessMR {} {}
              { id := "gt-mr-test", title := "Test MR",
                issueType := "merge-request",
                description := "target: main\nworker: TestWorker" } {}).2.2 = []
          ∧ (ProcessMR {} {}
              { id := "gt-mr-test", title := "Test MR",
                issueType := "merge-request",
                description := "target: main\nworker: TestWorker" } {}).1.success
              = false
          ∧ (ProcessMR {} {}
              { id := "gt-mr-test", title := "Test MR",
                issueType := "merge-request",
                description := "target: main\nworker: TestWorker" } {}).1.error =
              (if ParseMRFields "target: main\nworker: TestWorker" = none then
                "no MR fields found in description"
              else
                "branch field is required in merge request")) :=
  ⟨processmr_early_errors_c10 {} {} _ {} (Or.inl rfl),
    processmr_early_errors_c10 {} {} _ {} (Or.inr ⟨_, rfl, rfl⟩)⟩

/-- Predicate `beginsWith pat cs` is true when `pat` occurs at the start of `cs`
(character-level counterpart of `strings.HasPrefix`). -/
def beginsWith : List Char → List Char → Bool
  | [], _ => true
  | _ :: _, [] => false
  | p :: ps, c :: cs => if p = c then beginsWith ps cs else false

/-- Whether the string `s` begins with `pat`. -/
def strBeginsWith (s pat : String) : Bool :=
  beginsWith pat.data s.data

/-- Closed form of the four-iteration push retry loop. -/
theorem pushWithRetry_unfold (pushOk : Nat → Bool) :
    pushWithRetry pushOk =
      (if pushOk 0 then ⟨true, 1, [], ""⟩
      else if pushOk 1 then ⟨true, 2, [1], ""⟩
      else if pushOk 2 then ⟨true, 3, [1, 2], ""⟩
      else if pushOk 3 then ⟨true, 4, [1, 2, 4], ""⟩
      else ⟨false, 4, [1, 2, 4], "push failed after 3 retries"⟩) := by
  rfl

/-- C6 counterexample: the loop `for attempt := 0; attempt <= maxRetries`
with `maxRetries = 3` makes FOUR push attempts, not three.  With a push that
fails on attempts 0, 1 and 2 and succeeds on attempt 3, the code succeeds on
a fourth attempt, whereas the claim ("three push attempts in total; only
after the final attempt fails does it report push failure") would have
reported failure after the third.  A push that always fails is likewise
attempted four times. -/
theorem push_retry_three_attempts_false_c6 :
    (pushWithRetry (fun a => a == 3)).succeeded = true
      ∧ (pushWithRetry (fun a => a == 3)).attemptsMade = 4
      ∧ ¬ (pushWithRetry (fun a => a == 3)).attemptsMade ≤ 3
      ∧ (pushWithRetry (fun _ => false)).attemptsMade = 4 := by
  decide

/-- C6 amended: the refinery pushes with exponential backoff (base delay 1 s
doubled per retry, so sleeps of 1 s, 2 s, 4 s), making FOUR push attempts in
total (one initial try plus `maxRetries = 3` retries); it reports push
failure only when all four attempts fail, and `ExecuteMerge`'s resulting
error then begins with "push failed". -/
theorem push_retry_amended_c6 (pushOk : Nat → Bool) (cfg : MergeQueueConfig)
    (env : GitEnv) (g : GitState) (hpo : env.pushOk = pushOk)
    (hc : env.checkoutOk = true) (hm : env.mergeOutcome = .mergeSuccess)
    (ht : cfg.runTests = true → env.testsPass = true) :
    ((pushWithRetry pushOk).succeeded = false ↔
        pushOk 0 = false ∧ pushOk 1 = false ∧ pushOk 2 = false ∧
          pushOk 3 = false)
      ∧ ((pushWithRetry pushOk).succeeded = false →
          (pushWithRetry pushOk).attemptsMade = 4
            ∧ (pushWithRetry pushOk).sleeps = [1, 2, 4]
            ∧ strBeginsWith (ExecuteMerge cfg env g).1.error "push failed"
                = true) := by
  have hfail : ∀ hall : pushOk 0 = false ∧ pushOk 1 = false ∧
      pushOk 2 = false ∧ pushOk 3 = false,
      pushWithRetry pushOk =
        ⟨false, 4, [1, 2, 4], "push failed after 3 retries"⟩ := by
    intro hall
    rw [pushWithRetry_unfold]
    simp [hall.1, hall.2.1, hall.2.2.1, hall.2.2.2]
  have hiff : (pushWithRetry pushOk).succeeded = false ↔
      pushOk 0 = false ∧ pushOk 1 = false ∧ pushOk 2 = false ∧
        pushOk 3 = false := by
    rw [pushWithRetry_unfold]
    cases h0 : pushOk 0 <;> cases h1 : pushOk 1 <;> cases h2 : pushOk 2 <;>
      cases h3 : pushOk 3 <;> simp [h0, h1, h2, h3]
  refine ⟨hiff, fun hs => ?_⟩
  have hall := hiff.mp hs
  have heq := hfail hall
  refine ⟨by rw [heq], by rw [heq], ?_⟩
  have hnotand : ¬ (cfg.runTests = true ∧ env.testsPass = false) := by
    rintro ⟨h1, h2⟩
    rw [ht h1] at h2
    exact absurd h2 (by simp)
  dsimp only [ExecuteMerge]
  rw [hc]
  cases hpl : env.pullResult <;>
    · dsimp only
      rw [hm]
      dsimp only
      rw [if_neg hnotand, hpo, heq]
      cases hrt : cfg.runTests <;> simp <;> decide

/-- Witness for `push_retry_amended_c6` with a push that always fails. -/
theorem push_retry_amended_c6_witness :
    ({ pushOk := fun _ => false : GitEnv }.pushOk = fun _ => false)
      ∧ ({ pushOk := fun _ => false : GitEnv }.checkoutOk = true)
      ∧ ({ pushOk := fun _ => false : GitEnv }.mergeOutcome
          = MergeOutcome.mergeSuccess)
      ∧ (({} : MergeQueueConfig).runTests = true →
          { pushOk := fun _ => false : GitEnv }.testsPass = true)
      ∧ (((pushWithRetry (fun _ => false)).succeeded = false ↔
            (fun _ => false : Nat → Bool) 0 = false ∧
              (fun _ => false : Nat → Bool) 1 = false ∧
              (fun _ => false : Nat → Bool) 2 = false ∧
              (fun _ => false : Nat → Bool) 3 = false)
          ∧ ((pushWithRetry (fun _ => false)).succeeded = false →
              (pushWithRetry (fun _ => false)).attemptsMade = 4
                ∧ (pushWithRetry (fun _ => false)).sleeps = [1, 2, 4]
                ∧ strBeginsWith (ExecuteMerge {} { pushOk := fun _ => false }
                    { localTarget := ["c0"], remoteTarget := ["c0"] }
                    ).1.error "push failed" = true)) :=
  ⟨rfl, rfl, rfl, fun _ => rfl,
    push_retry_amended_c6 (fun _ => false) {} { pushOk := fun _ => false }
      { localTarget := ["c0"], remoteTarget := ["c0"] } rfl rfl rfl
      fun _ => rfl⟩

/-- The local target branch contents after the tick's `git pull origin
<target>` step (the pull either fast-forwards to the remote or leaves the
branch unchanged). -/
def postPullTarget (env : GitEnv) (g : GitState) : List String :=
  match env.pullResult with
  | some l => l
  | none => g.localTarget

/-- C3: when a refinery tick processes a merge-request successfully (fields
parse with a branch, fetch, checkout, merge, tests and push all succeed, and
`git rev-parse HEAD` resolves), the MR ends the tick closed with close
reason `"merged: "` followed by the SHA obtained by resolving HEAD of the
checked-out target branch after merge, tests and push; that SHA is the merge
commit, and the remote target has been pushed to exactly that state. -/
theorem refinery_success_close_reason_c3 (cfg : MergeQueueConfig)
    (env : GitEnv) (mr : Issue) (g : GitState) (f : MRFields)
    (hp : ParseMRFields mr.description = some f) (hb : ¬ f.branch = "")
    (hf : env.fetchOk = true) (hc : env.checkoutOk = true)
    (hm : env.mergeOutcome = .mergeSuccess)
    (ht : cfg.runTests = true → env.testsPass = true)
    (hpush : (pushWithRetry env.pushOk).succeeded = true)
    (hrev : env.revParseOk = true) :
    (processTick cfg env mr g).1.status = "closed"
      ∧ (processTick cfg env mr g).1.closeReason =
          "merged: " ++
            revParseHead env.revParseOk
              (processTick cfg env mr g).2.1.localTarget
      ∧ (processTick cfg env mr g).2.1.localTarget =
          env.newCommit :: postPullTarget env g
      ∧ (processTick cfg env mr g).2.1.remoteTarget =
          (processTick cfg env mr g).2.1.localTarget := by
  have hp2 : ParseMRFields ({ mr with status := "in_progress" } : Issue).description
      = some f := hp
  have hbf : (f.branch = "") = False := eq_false hb
  have hnotand : (cfg.runTests = true ∧ env.testsPass = false) = False := by
    refine eq_false ?_
    rintro ⟨h1, h2⟩
    rw [ht h1] at h2
    exact absurd h2 (by simp)
  cases hpl : env.pullResult with
  | none =>
    simp [processTick, ProcessMR, ExecuteMerge, hp2, hbf, hf, hc, hpl, hm,
      hnotand, hpush, revParseHead, hrev, postPullTarget]
  | some l =>
    simp [processTick, ProcessMR, ExecuteMerge, hp2, hbf, hf, hc, hpl, hm,
      hnotand, hpush, revParseHead, hrev, postPullTarget]

/-- Witness for `refinery_success_close_reason_c3`: a fully successful
environment merging branch `b` of MR `gt-mr-1` on top of target
history `[c0]`. -/
theorem refinery_success_close_reason_c3_witness :
    ParseMRFields "branch: b\ntarget: main" =
        some { branch := "b", target := "main" }
      ∧ ¬ ({ branch := "b", target := "main" } : MRFields).branch = ""
      ∧ ({ newCommit := "m1" } : GitEnv).fetchOk = true
      ∧ ({ newCommit := "m1" } : GitEnv).checkoutOk = true
      ∧ ({ newCommit := "m1" } : GitEnv).mergeOutcome
          = MergeOutcome.mergeSuccess
      ∧ (({} : MergeQueueConfig).runTests = true →
          ({ newCommit := "m1" } : GitEnv).testsPass = true)
      ∧ (pushWithRetry ({ newCommit := "m1" } : GitEnv).pushOk).succeeded
          = true
      ∧ ({ newCommit := "m1" } : GitEnv).revParseOk = true
      ∧ ((processTick {} { newCommit := "m1" }
            { id := "gt-mr-1", title := "T",
              description := "branch: b\ntarget: main" }
            { localTarget := ["c0"], remoteTarget := ["c0"] }).1.status
            = "closed"
          ∧ (processTick {} { newCommit := "m1" }
              { id := "gt-mr-1", title := "T",
                description := "branch: b\ntarget: main" }
              { localTarget := ["c0"], remoteTarget := ["c0"] }).1.closeReason =
              "merged: " ++
                revParseHead ({ newCommit := "m1" } : GitEnv).revParseOk
                  (processTick {} { newCommit := "m1" }
                    { id := "gt-mr-1", title := "T",
                      description := "branch: b\ntarget: main" }
                    { localTarget := ["c0"],
                      remoteTarget := ["c0"] }).2.1.localTarget
          ∧ (processTick {} { newCommit := "m1" }
              { id := "gt-mr-1", title := "T",
                description := "branch: b\ntarget: main" }
              { localTarget := ["c0"],
                remoteTarget := ["c0"] }).2.1.localTarget =
              ({ newCommit := "m1" } : GitEnv).newCommit ::
                postPullTarget { newCommit := "m1" }
                  { localTarget := ["c0"], remoteTarget := ["c0"] }
          ∧ (processTick {} { newCommit := "m1" }
              { id := "gt-mr-1", title := "T",
                description := "branch: b\ntarget: main" }
              { localTarget := ["c0"],
                remoteTarget := ["c0"] }).2.1.remoteTarget =
              (processTick {} { newCommit := "m1" }
                { id := "gt-mr-1", title := "T",
                  description := "branch: b\ntarget: main" }
                { localTarget := ["c0"],
                  remoteTarget := ["c0"] }).2.1.localTarget) :=
  ⟨rfl, by decide, rfl, rfl, rfl, fun _ => rfl, by decide, rfl,
    refinery_success_close_reason_c3 {} { newCommit := "m1" }
      { id := "gt-mr-1", title := "T",
        description := "branch: b\ntarget: main" }
      { localTarget := ["c0"], remoteTarget := ["c0"] }
      { branch := "b", target := "main" } rfl (by decide) rfl rfl rfl
      (fun _ => rfl) (by decide) rfl⟩

/-- C4 counterexample: a failed tick does NOT always restore the local
target branch to its pre-tick state.  `ExecuteMerge` pulls the remote target
before merging; on a test failure the hard reset removes only the merge
commit, leaving the pulled-in commit `c1`.  Concretely, with pre-tick local
target `[c0]`, a pull that fast-forwards to `[c1, c0]` and failing tests,
the MR is reopened but the local target ends the tick at `[c1, c0] ≠ [c0]`. -/
theorem refinery_failure_restore_false_c4 :
    (processTick {}
        { newCommit := "m1", testsPass := false,
          pullResult := some ["c1", "c0"] }
        { id := "gt-mr-1", title := "T", description := "branch: b" }
        { localTarget := ["c0"], remoteTarget := ["c0"] }).1.status = "open"
      ∧ ¬ (processTick {}
          { newCommit := "m1", testsPass := false,
            pullResult := some ["c1", "c0"] }
          { id := "gt-mr-1", title := "T", description := "branch: b" }
          { localTarget := ["c0"], remoteTarget := ["c0"] }).2.1.localTarget =
          ({ localTarget := ["c0"], remoteTarget := ["c0"] } : GitState).localTarget := by
  decide

/-- C4 amended: when refinery processing of a parsed merge-request fails
with a merge conflict, a test failure or a push failure, the MR ends the
tick with status open again and the local target branch is restored to its
state just after the tick's pull of the remote target (the merge is aborted
on conflict, or undone by a hard reset of one commit on test or push
failure); this equals the pre-tick state whenever the pull changed
nothing. -/
theorem refinery_failure_reopen_c4 (cfg : MergeQueueConfig) (env : GitEnv)
    (mr : Issue) (g : GitState) (f : MRFields)
    (hp : ParseMRFields mr.description = some f) (hb : ¬ f.branch = "")
    (hf : env.fetchOk = true) (hc : env.checkoutOk = true)
    (hfail : env.mergeOutcome = .conflictOutcome
      ∨ (env.mergeOutcome = .mergeSuccess ∧ cfg.runTests = true ∧
          env.testsPass = false)
      ∨ (env.mergeOutcome = .mergeSuccess ∧
          (cfg.runTests = true → env.testsPass = true) ∧
          (pushWithRetry env.pushOk).succeeded = false)) :
    (processTick cfg env mr g).1.status = "open"
      ∧ (processTick cfg env mr g).2.1.localTarget = postPullTarget env g := by
  have hp2 : ParseMRFields ({ mr with status := "in_progress" } : Issue).description
      = some f := hp
  have hbf : (f.branch = "") = False := eq_false hb
  rcases hfail with hm | ⟨hm, hrt, htp⟩ | ⟨hm, ht, hpush⟩
  · cases hpl : env.pullResult with
    | none =>
      simp [processTick, ProcessMR, ExecuteMerge, hp2, hbf, hf, hc, hpl, hm,
        postPullTarget]
    | some l =>
      simp [processTick, ProcessMR, ExecuteMerge, hp2, hbf, hf, hc, hpl, hm,
        postPullTarget]
  · cases hpl : env.pullResult with
    | none =>
      simp [processTick, ProcessMR, ExecuteMerge, hp2, hbf, hf, hc, hpl, hm,
        hrt, htp, postPullTarget]
    | some l =>
      simp [processTick, ProcessMR, ExecuteMerge, hp2, hbf, hf, hc, hpl, hm,
        hrt, htp, postPullTarget]
  · have hnotand : (cfg.runTests = true ∧ env.testsPass = false) = False := by
      refine eq_false ?_
      rintro ⟨h1, h2⟩
      rw [ht h1] at h2
      exact absurd h2 (by simp)
    cases hpl : env.pullResult with
    | none =>
      simp [processTick, ProcessMR, ExecuteMerge, hp2, hbf, hf, hc, hpl, hm,
        hnotand, hpush, postPullTarget]
    | some l =>
      simp [processTick, ProcessMR, ExecuteMerge, hp2, hbf, hf, hc, hpl, hm,
        hnotand, hpush, postPullTarget]

/-- Witness for `refinery_failure_reopen_c4`: a merge conflict on MR
`gt-mr-1` with pre-tick target history `[c0]` and no pull movement. -/
theorem refinery_failure_reopen_c4_witness :
    ParseMRFields "branch: b" = some { branch := "b" }
      ∧ ¬ ({ branch := "b" } : MRFields).branch = ""
      ∧ ({ mergeOutcome := .conflictOutcome } : GitEnv).fetchOk = true
      ∧ ({ mergeOutcome := .conflictOutcome } : GitEnv).checkoutOk = true
      ∧ ({ mergeOutcome := .conflictOutcome } : GitEnv).mergeOutcome
          = MergeOutcome.conflictOutcome
      ∧ ((processTick {} { mergeOutcome := .conflictOutcome }
            { id := "gt-mr-1", title := "T", description := "branch: b" }
            { localTarget := ["c0"], remoteTarget := ["c0"] }).1.status
            = "open"
          ∧ (processTick {} { mergeOutcome := .conflictOutcome }
              { id := "gt-mr-1", title := "T", description := "branch: b" }
              { localTarget := ["c0"],
                remoteTarget := ["c0"] }).2.1.localTarget =
              postPullTarget { mergeOutcome := .conflictOutcome }
                { localTarget := ["c0"], remoteTarget := ["c0"] }) :=
  ⟨rfl, by decide, rfl, rfl, rfl,
    refinery_failure_reopen_c4 {} { mergeOutcome := .conflictOutcome }
      { id := "gt-mr-1", title := "T", description := "branch: b" }
      { localTarget := ["c0"], remoteTarget := ["c0"] } { branch := "b" }
      rfl (by decide) rfl rfl (Or.inl rfl)⟩

/-! ## Projection sync daemon state (src/unnamed/part_005 and part_006)

`SaveState` (part_005 lines 120-151) marshals a `State` struct whose fields
are exactly `running, pid, started_at, last_sync, sync_count, error_count`;
`New` (part_006 lines 91-128) loads the state file and reads cursor fields
(`LastEventID`, `LastTaskUpdate`, `LastCommentSync`, `IncrementalSynced`)
from it.  A key absent from the written JSON unmarshals to the Go zero
value, which the model makes explicit: the persisted record carries the
cursor fields, but `SaveState` always writes their zero values because the
`State` struct it marshals has no such fields. -/

/-- The in-memory sync daemon fields relevant to state persistence
(`SyncDaemon`, part_006 lines 63-79). -/
structure SyncDaemon where
  lastSync : Int := 0
  syncCount : Int := 0
  errorCount : Int := 0
  lastEventID : Int := 0
  lastTaskUpdate : Int := 0
  lastCommentSync : Int := 0
  incrementalEnabled : Bool := false
deriving DecidableEq, Repr

/-- The persisted state file contents as `New` reads them.  Fields written
by `SaveState` (part_005): `running`, `pid`, `lastSync`, `syncCount`,
`errorCount`.  Cursor fields read by `New` (part_006): `lastEventID`,
`lastTaskUpdate`, `lastCommentSync`, `incrementalSynced`; they default to Go
zero values when absent from the JSON. -/
structure StateFile where
  running : Bool := false
  pid : Int := 0
  lastSync : Int := 0
  syncCount : Int := 0
  errorCount : Int := 0
  lastEventID : Int := 0
  lastTaskUpdate : Int := 0
  lastCommentSync : Int := 0
  incrementalSynced : Bool := false
deriving DecidableEq, Repr

/-- Function `SaveState` (part_005 lines 120-151): the marshalled `State` struct has
only `running`, `pid`, `started_at`, `last_sync`, `sync_count`,
`error_count`, so the cursors and the incremental flag are not written (they
stay at their zero values in the file). -/
def SaveState (d : SyncDaemon) (pid : Int) : StateFile :=
  { running := true
    pid := pid
    lastSync := d.lastSync
    syncCount := d.syncCount
    errorCount := d.errorCount }

/-- Function `New` (part_006 lines 91-128): construct a daemon with incremental sync
disabled, then, when a persisted state loads, restore the cursors and the
incremental flag from it. -/
def New (persisted : Option StateFile) : SyncDaemon :=
  let daemon : SyncDaemon := { incrementalEnabled := false }
  match persisted with
  | some st =>
    { daemon with
        lastEventID := st.lastEventID
        lastTaskUpdate := st.lastTaskUpdate
        lastCommentSync := st.lastCommentSync
        incrementalEnabled := st.incrementalSynced }
  | none => daemon

/-- C5 (code behaviour at the failing input): a save-then-load round trip
does NOT preserve the incremental cursors.  With the values of the
repository's own test `TestIncrementalStatePreservation`
(`lastEventID = 12345`, `lastTaskUpdate = 67890`,
`incrementalEnabled = true`), the daemon reconstructed from the saved state
file has `lastEventID = 0`, `lastTaskUpdate = 0` and
`incrementalEnabled = false`, because `SaveState` marshals a `State` struct
that carries no cursor fields. -/
theorem projection_state_round_trip_c5 :
    (New (some (SaveState
        { lastEventID := 12345, lastTaskUpdate := 67890,
          incrementalEnabled := true } 1))).lastEventID = 0
      ∧ (New (some (SaveState
          { lastEventID := 12345, lastTaskUpdate := 67890,
            incrementalEnabled := true } 1))).lastTaskUpdate = 0
      ∧ (New (some (SaveState
          { lastEventID := 12345, lastTaskUpdate := 67890,
            incrementalEnabled := true } 1))).incrementalEnabled = false
      ∧ ¬ New (some (SaveState
          { lastEventID := 12345, lastTaskUpdate := 67890,
            incrementalEnabled := true } 1)) =
          { lastEventID := 12345, lastTaskUpdate := 67890,
            incrementalEnabled := true } := by
  decide

end Gastown
